import Mathlib

/-!
Verification of the pi-studio coordination core (src/index.ts).

The TypeScript source is shallowly embedded: the mutable module-level
variables of the extension closure (`activeRequest`, `agentBusy`,
`lastStudioResponse`, the server's client set and token) become fields of
explicit state records, each event handler becomes a pure function from
state to state paired with the list of observable outputs it emits
(broadcasts, unicasts, prompt submissions, connection closes), and
JavaScript strings are modelled as Lean strings (code-point based; the
divergence from UTF-16 `.length` and Unicode-aware `trim`/`toLowerCase`
is irrelevant to the ASCII inputs that decide the claims).

`setTimeout`/`clearTimeout` are modelled by a fresh-id counter plus the
list of currently armed timer ids; `crypto.randomUUID` session tokens are
modelled by a fresh-value counter (successive UUIDs are distinct).
-/

namespace PiStudio

/-- `type StudioRequestKind = "critique" | "annotation" | "direct"`.
The middle variant is named `annot` here. -/
inductive StudioRequestKind
  | critique
  | annot
  | direct
  deriving DecidableEq

/-- `type Lens = "writing" | "code"` together with the `"auto"` request form
(`type RequestedLens = Lens | "auto"`). -/
inductive RequestedLens
  | auto
  | writing
  | code
  deriving DecidableEq

/-- `interface ActiveStudioRequest { id; kind; timer; startedAt }`.
The `timer` field holds the id of the timeout armed by `beginRequest`. -/
structure ActiveStudioRequest where
  id : String
  kind : StudioRequestKind
  timer : Nat
  startedAt : Nat
  deriving DecidableEq

/-- `interface LastStudioResponse { markdown; timestamp; kind }`. -/
structure LastStudioResponse where
  markdown : String
  timestamp : Nat
  kind : StudioRequestKind
  deriving DecidableEq

/-- `type StudioSourceKind = "file" | "last-response" | "blank"`. -/
inductive StudioSourceKind
  | file
  | lastResponse
  | blank
  deriving DecidableEq

/-- `interface InitialStudioDocument { text; label; source; path? }`. -/
structure InitialStudioDocument where
  text : String
  label : String
  source : StudioSourceKind
  path : Option String
  deriving DecidableEq

/-! ### String primitives

JavaScript string operations used by the source, embedded over `List Char`
so that they stay amenable to induction. -/

/-- `hay` starts with `needle` (character-wise). -/
def listStartsWith : List Char → List Char → Bool
  | _, [] => true
  | [], _ :: _ => false
  | a :: as, b :: bs => a = b && listStartsWith as bs

/-- JavaScript `hay.includes(needle)`: `needle` occurs contiguously in `hay`. -/
def listHasSub : List Char → List Char → Bool
  | [], needle => needle.isEmpty
  | hay@(_ :: rest), needle => listStartsWith hay needle || listHasSub rest needle

/-- JavaScript `s.includes(sub)` on strings. -/
def strIncludes (s sub : String) : Bool :=
  listHasSub s.data sub.data

/-- JavaScript `String.prototype.trim` (whitespace at both ends removed),
on character lists. -/
def trimChars (cs : List Char) : List Char :=
  ((cs.dropWhile Char.isWhitespace).reverse.dropWhile Char.isWhitespace).reverse

/-- JavaScript `s.trim()`. -/
def jsTrim (s : String) : String :=
  String.mk (trimChars s.data)

/-- JavaScript `s.toLowerCase()` (ASCII-accurate, which is all the needles
below require). -/
def jsToLower (s : String) : String :=
  String.mk (s.data.map Char.toLower)

/-- Split a character list at every `'\n'`; the result is never empty and
joining it back with `'\n'` restores the input (`joinLines_splitLines`). -/
def splitLines : List Char → List (List Char)
  | [] => [[]]
  | c :: rest =>
    match splitLines rest with
    | [] => [[]]
    | l :: ls => if c = '\n' then [] :: l :: ls else (c :: l) :: ls

/-- Join lines back with `'\n'` separators. -/
def joinLines : List (List Char) → List Char
  | [] => []
  | [l] => l
  | l :: ls => l ++ '\n' :: joinLines ls

/-! ### Kind inference (src/index.ts `inferStudioResponseKind`) -/

/-- ```
function inferStudioResponseKind(markdown) {
  const lower = markdown.toLowerCase();
  if (lower.includes("## critiques") && lower.includes("## document")) return "critique";
  return "annotation";
}
``` -/
def inferStudioResponseKind (markdown : String) : StudioRequestKind :=
  let lower := jsToLower markdown
  if strIncludes lower "## critiques" && strIncludes lower "## document" then
    StudioRequestKind.critique
  else
    StudioRequestKind.annot

/-- Modelled from the spec: "markdown containing both a \"## Critiques\" and a
\"## Document\" heading (case-insensitive, exact heading-line match)" — the
heading must occur as a whole line of the (lowercased) markdown. This is the
spec-side reading, to be compared against `inferStudioResponseKind`. -/
def specHasHeadingLine (md heading : String) : Bool :=
  decide (heading.data ∈ splitLines (jsToLower md).data)

/-- Modelled from the spec: the kind-inference rule as the spec words it
(heading-line matches rather than substring containment). -/
def specInferKind (md : String) : StudioRequestKind :=
  if specHasHeadingLine md "## critiques" && specHasHeadingLine md "## document" then
    StudioRequestKind.critique
  else
    StudioRequestKind.annot

/-- `function isValidRequestId(id) { return /^[a-zA-Z0-9_-]{1,120}$/.test(id); }` -/
def isValidRequestIdChar (c : Char) : Bool :=
  ('a' ≤ c && c ≤ 'z') || ('A' ≤ c && c ≤ 'Z') || ('0' ≤ c && c ≤ '9') || c = '_' || c = '-'

/-- Request-id validation: 1 to 120 characters from `[a-zA-Z0-9_-]`. -/
def isValidRequestId (id : String) : Bool :=
  1 ≤ id.length && id.length ≤ 120 && id.data.all isValidRequestIdChar

/-! ### Assistant-message flattening (src/index.ts `extractAssistantText`)

The host-defined nested message shape is embedded structurally: `part.text`
may be a string, an object with a string `value`, or absent; `part.type` is
either a string or absent; array entries may be non-objects (`none`). -/

/-- The dynamic shape of `part.text` inside an assistant message. -/
inductive PartText
  | missing
  | str (s : String)
  | obj (value : Option String)
  deriving DecidableEq

/-- One entry of an assistant message's `content` array. -/
structure ContentPart where
  ptype : Option String
  ptext : PartText
  deriving DecidableEq

/-- The dynamic shape of `msg.content`: a string, an array (entries that are
not objects appear as `none`), or anything else. -/
inductive MsgContent
  | str (s : String)
  | arr (parts : List (Option ContentPart))
  | other
  deriving DecidableEq

/-- An agent message as destructured by `extractAssistantText`
(`stopReason` is destructured but never read, so it is omitted). -/
structure AgentMessage where
  role : Option String
  content : MsgContent
  deriving DecidableEq

/-- `const partType = typeof part.type === "string" ? part.type : ""`. -/
def partTypeName (p : ContentPart) : String :=
  p.ptype.getD ""

/-- `!partType || partType === "text" || partType === "output_text"`. -/
def typeAllowsText (t : String) : Bool :=
  t = "" || t = "text" || t = "output_text"

/-- The `blocks` accumulation loop of `extractAssistantText`: literal/text
segments of the content array, other content kinds ignored. -/
def collectBlocks : List (Option ContentPart) → List String
  | [] => []
  | none :: rest => collectBlocks rest
  | some p :: rest =>
    match p.ptext with
    | PartText.str s =>
      (if typeAllowsText (partTypeName p) then [s] else []) ++ collectBlocks rest
    | PartText.obj (some v) =>
      (if typeAllowsText (partTypeName p) then [v] else []) ++ collectBlocks rest
    | _ => collectBlocks rest

/-- JavaScript `blocks.join("\n\n")`. -/
def joinBlocks : List String → String
  | [] => ""
  | [b] => b
  | b :: bs => b ++ "\n\n" ++ joinBlocks bs

/-- ```
function extractAssistantText(message) {
  if (!msg || msg.role !== "assistant") return null;
  if (typeof msg.content === "string") { const text = msg.content.trim(); ... }
  if (!Array.isArray(msg.content)) return null;
  const blocks = [...]; const text = blocks.join("\n\n").trim();
  return text.length > 0 ? text : null;
}
``` -/
def extractAssistantText (m : AgentMessage) : Option String :=
  if m.role ≠ some "assistant" then none
  else
    match m.content with
    | MsgContent.str s =>
      let text := jsTrim s
      if text = "" then none else some text
    | MsgContent.arr parts =>
      let text := jsTrim (joinBlocks (collectBlocks parts))
      if text = "" then none else some text
    | MsgContent.other => none

/-! ### Protocol messages and observable outputs -/

/-- The payload handed to `pi.sendUserMessage`. Prompt-template construction
(`buildCritiquePrompt`/`resolveLens`) is outside the modelled core (spec §1
places template text out of scope), so the critique payload records the
inputs to the template builder. -/
inductive SubmitPayload
  | critiquePrompt (document : String) (lens : Option RequestedLens)
  | raw (text : String)
  deriving DecidableEq

/-- Server-to-client protocol messages emitted by the coordination core. -/
inductive OutMsg
  | pong (timestamp : Nat)
  | helloAck (busy : Bool) (activeRequestId : Option String)
      (lastResponse : Option LastStudioResponse)
      (initialDocument : Option InitialStudioDocument)
  | info (message : String) (level : Option String)
  | latestResponse (kind : StudioRequestKind) (markdown : String) (timestamp : Nat)
  | errorMsg (requestId : Option String) (message : String)
  | busyMsg (requestId : String) (message : String)
  | requestStarted (requestId : String) (kind : StudioRequestKind)
  | studioState (busy : Bool) (activeRequestId : Option String)
  | response (requestId : String) (kind : StudioRequestKind) (markdown : String)
      (timestamp : Nat)
  deriving DecidableEq

/-- An observable action of a coordinator event handler: `broadcast(...)`,
`sendToClient(client, ...)`, or `pi.sendUserMessage(...)`. Clients are
identified by numeric ids. -/
inductive StudioOutput
  | toAll (m : OutMsg)
  | toClient (client : Nat) (m : OutMsg)
  | submit (p : SubmitPayload)
  deriving DecidableEq

/-- `broadcast` delivers to every connected client; `sendToClient` to its one
recipient; a prompt submission reaches no client. -/
def deliverOutput (clients : List Nat) : StudioOutput → List (Nat × OutMsg)
  | StudioOutput.toAll m => clients.map (fun c => (c, m))
  | StudioOutput.toClient c m => [(c, m)]
  | StudioOutput.submit _ => []

/-- All `(recipient, message)` deliveries produced by a list of outputs, in
emission order. -/
def deliverOutputs (clients : List Nat) (outs : List StudioOutput) : List (Nat × OutMsg) :=
  (outs.map (deliverOutput clients)).flatten

/-- Client-originated messages in the modelled core. The file/editor actions
(`save_as_request`, `save_over_request`, `send_to_editor_request`) never touch
the request-coordinator state and are outside the claims, so they are not
modelled. `annotation_request` is the `annotRequest` variant. -/
inductive IncomingStudioMessage
  | hello
  | ping
  | getLatestResponse
  | critiqueRequest (requestId document : String) (lens : Option RequestedLens)
  | annotRequest (requestId text : String)
  | sendRunRequest (requestId text : String)
  deriving DecidableEq

/-! ### The request coordinator (src/index.ts, extension closure)

State of the closure variables `agentBusy`, `activeRequest`,
`lastStudioResponse`, `initialStudioDocument`, plus the timer model:
`nextTimerId` supplies fresh `setTimeout` handles and `armedTimers` is the
set of handles whose callbacks are still scheduled (`clearTimeout` removes
a handle). -/
structure CoordState where
  agentBusy : Bool
  activeRequest : Option ActiveStudioRequest
  lastStudioResponse : Option LastStudioResponse
  initialStudioDocument : Option InitialStudioDocument
  nextTimerId : Nat
  armedTimers : List Nat
  deriving DecidableEq

/-- `const isStudioBusy = () => agentBusy || activeRequest !== null`. -/
def isStudioBusy (s : CoordState) : Bool :=
  s.agentBusy || s.activeRequest.isSome

/-- The `studio_state{busy, activeRequestId}` message `broadcastState()`
emits for state `s`. -/
def stateMsg (s : CoordState) : OutMsg :=
  OutMsg.studioState (isStudioBusy s) (s.activeRequest.map (fun r => r.id))

/-- `const REQUEST_TIMEOUT_MS = 5 * 60 * 1000`. -/
def REQUEST_TIMEOUT_MS : Nat := 5 * 60 * 1000

/-- ```
const clearActiveRequest = (options?) => {
  if (!activeRequest) return;
  clearTimeout(activeRequest.timer);
  activeRequest = null;
  broadcastState();
  if (options?.notify) broadcast({ type: "info", message, level });
};
``` -/
def clearActiveRequest (s : CoordState) (notify : Option (String × String)) :
    CoordState × List StudioOutput :=
  match s.activeRequest with
  | none => (s, [])
  | some r =>
    let s' : CoordState :=
      { s with
        activeRequest := none
        armedTimers := s.armedTimers.filter (fun t => t ≠ r.timer) }
    (s',
      [StudioOutput.toAll (stateMsg s')] ++
        match notify with
        | some (m, lvl) => [StudioOutput.toAll (OutMsg.info m (some lvl))]
        | none => [])

/-- ```
const beginRequest = (requestId, kind) => {
  if (activeRequest) { broadcast({type:"busy",...}); return false; }
  if (agentBusy) { broadcast({type:"busy",...}); return false; }
  const timer = setTimeout(..., REQUEST_TIMEOUT_MS);
  activeRequest = { id: requestId, kind, startedAt: Date.now(), timer };
  broadcast({ type: "request_started", requestId, kind });
  broadcastState();
  return true;
};
``` -/
def beginRequest (s : CoordState) (requestId : String) (kind : StudioRequestKind)
    (now : Nat) : CoordState × List StudioOutput × Bool :=
  match s.activeRequest with
  | some _ =>
    (s, [StudioOutput.toAll
      (OutMsg.busyMsg requestId "A studio request is already in progress.")], false)
  | none =>
    if s.agentBusy then
      (s, [StudioOutput.toAll
        (OutMsg.busyMsg requestId
          "pi is currently busy. Wait for the current turn to finish.")], false)
    else
      let timer := s.nextTimerId
      let s' : CoordState :=
        { s with
          nextTimerId := s.nextTimerId + 1
          armedTimers := s.armedTimers ++ [timer]
          activeRequest := some ⟨requestId, kind, timer, now⟩ }
      (s',
        [StudioOutput.toAll (OutMsg.requestStarted requestId kind),
         StudioOutput.toAll (stateMsg s')], true)

/-- The body of the timeout armed by `beginRequest` (the closure captures
`requestId`); it may run as a delayed callback after the state has changed:
```
if (!activeRequest || activeRequest.id !== requestId) return;
broadcast({ type: "error", requestId, message: "Studio request timed out. ..." });
clearActiveRequest();
``` -/
def timeoutFire (s : CoordState) (requestId : String) : CoordState × List StudioOutput :=
  match s.activeRequest with
  | none => (s, [])
  | some r =>
    if r.id = requestId then
      let cleared := clearActiveRequest s none
      (cleared.1,
        [StudioOutput.toAll
          (OutMsg.errorMsg (some requestId) "Studio request timed out. Please try again.")] ++
          cleared.2)
    else (s, [])

/-- The `pi.on("message_end")` handler: flatten the assistant message; while
`Active` treat it as the active request's answer, otherwise update
LastResponse with an inferred kind and push `latest_response`. -/
def handleMessageEnd (s : CoordState) (m : AgentMessage) (now : Nat) :
    CoordState × List StudioOutput :=
  match extractAssistantText m with
  | none => (s, [])
  | some markdown =>
    match s.activeRequest with
    | some r =>
      let s1 : CoordState :=
        { s with lastStudioResponse := some ⟨markdown, now, r.kind⟩ }
      let cleared := clearActiveRequest s1 none
      (cleared.1,
        [StudioOutput.toAll (OutMsg.response r.id r.kind markdown now)] ++ cleared.2)
    | none =>
      let inferred := inferStudioResponseKind markdown
      ({ s with lastStudioResponse := some ⟨markdown, now, inferred⟩ },
        [StudioOutput.toAll (OutMsg.latestResponse inferred markdown now)])

/-- The `pi.on("agent_start")` handler: `agentBusy = true; broadcastState()`. -/
def handleAgentStart (s : CoordState) : CoordState × List StudioOutput :=
  let s1 : CoordState := { s with agentBusy := true }
  (s1, [StudioOutput.toAll (stateMsg s1)])

/-- The `pi.on("agent_end")` handler:
```
agentBusy = false; broadcastState();
if (activeRequest) {
  broadcast({ type: "error", requestId, message: "Request ended without a complete assistant response." });
  clearActiveRequest();
}
``` -/
def handleAgentEnd (s : CoordState) : CoordState × List StudioOutput :=
  let s1 : CoordState := { s with agentBusy := false }
  match s1.activeRequest with
  | some r =>
    let cleared := clearActiveRequest s1 none
    (cleared.1,
      [StudioOutput.toAll (stateMsg s1),
       StudioOutput.toAll
         (OutMsg.errorMsg (some r.id)
           "Request ended without a complete assistant response.")] ++ cleared.2)
  | none => (s1, [StudioOutput.toAll (stateMsg s1)])

/-- The `handleStudioMessage(client, msg)` dispatcher for the modelled
message types. `submitThrows` models whether `pi.sendUserMessage` throws
synchronously; when it does not throw, the handed payload appears as a
`StudioOutput.submit` output. Error texts drop the interpolated exception
message (it comes from the external bridge). -/
def handleStudioMessage (s : CoordState) (client : Nat) (msg : IncomingStudioMessage)
    (now : Nat) (submitThrows : Bool) : CoordState × List StudioOutput :=
  match msg with
  | IncomingStudioMessage.ping =>
    (s, [StudioOutput.toClient client (OutMsg.pong now)])
  | IncomingStudioMessage.hello =>
    (s, [StudioOutput.toClient client
      (OutMsg.helloAck (isStudioBusy s) (s.activeRequest.map (fun r => r.id))
        s.lastStudioResponse s.initialStudioDocument)])
  | IncomingStudioMessage.getLatestResponse =>
    match s.lastStudioResponse with
    | none =>
      (s, [StudioOutput.toClient client
        (OutMsg.info "No latest assistant response is available yet." none)])
    | some lr =>
      (s, [StudioOutput.toClient client
        (OutMsg.latestResponse lr.kind lr.markdown lr.timestamp)])
  | IncomingStudioMessage.critiqueRequest requestId doc lens =>
    if isValidRequestId requestId = false then
      (s, [StudioOutput.toClient client
        (OutMsg.errorMsg (some requestId) "Invalid request ID.")])
    else
      let document := jsTrim doc
      if document = "" then
        (s, [StudioOutput.toClient client
          (OutMsg.errorMsg (some requestId) "Document is empty.")])
      else if 200000 < document.length then
        (s, [StudioOutput.toClient client
          (OutMsg.errorMsg (some requestId)
            "Document is too large for v0.1 studio workflow.")])
      else
        let begun := beginRequest s requestId StudioRequestKind.critique now
        if begun.2.2 = false then (begun.1, begun.2.1)
        else if submitThrows then
          let cleared := clearActiveRequest begun.1 none
          (cleared.1,
            begun.2.1 ++ cleared.2 ++
              [StudioOutput.toClient client
                (OutMsg.errorMsg (some requestId) "Failed to send critique request.")])
        else
          (begun.1, begun.2.1 ++
            [StudioOutput.submit (SubmitPayload.critiquePrompt document lens)])
  | IncomingStudioMessage.annotRequest requestId txt =>
    if isValidRequestId requestId = false then
      (s, [StudioOutput.toClient client
        (OutMsg.errorMsg (some requestId) "Invalid request ID.")])
    else
      let text := jsTrim txt
      if text = "" then
        (s, [StudioOutput.toClient client
          (OutMsg.errorMsg (some requestId) "Response text is empty.")])
      else
        let begun := beginRequest s requestId StudioRequestKind.annot now
        if begun.2.2 = false then (begun.1, begun.2.1)
        else if submitThrows then
          let cleared := clearActiveRequest begun.1 none
          (cleared.1,
            begun.2.1 ++ cleared.2 ++
              [StudioOutput.toClient client
                (OutMsg.errorMsg (some requestId) "Failed to send response.")])
        else
          (begun.1, begun.2.1 ++ [StudioOutput.submit (SubmitPayload.raw text)])
  | IncomingStudioMessage.sendRunRequest requestId txt =>
    if isValidRequestId requestId = false then
      (s, [StudioOutput.toClient client
        (OutMsg.errorMsg (some requestId) "Invalid request ID.")])
    else
      let text := jsTrim txt
      if text = "" then
        (s, [StudioOutput.toClient client
          (OutMsg.errorMsg (some requestId) "Editor text is empty.")])
      else
        let begun := beginRequest s requestId StudioRequestKind.direct now
        if begun.2.2 = false then (begun.1, begun.2.1)
        else if submitThrows then
          let cleared := clearActiveRequest begun.1 none
          (cleared.1,
            begun.2.1 ++ cleared.2 ++
              [StudioOutput.toClient client
                (OutMsg.errorMsg (some requestId) "Failed to send editor text to model.")])
        else
          (begun.1, begun.2.1 ++ [StudioOutput.submit (SubmitPayload.raw txt)])

/-! ### The HTTP/WebSocket server (src/index.ts `ensureServer` and friends)

`StudioServerState` holds the session token and the connected-client set.
`crypto.randomUUID()` is modelled by the fresh-value counter `nextToken`
(successive UUIDs are distinct), so tokens are numbers; a presented
`?token=` query value is `Option Nat` (`none` for missing or garbage).
Fresh WebSocket clients come from the counter `nextClientId`. -/
structure StudioServerState where
  clients : List Nat
  nextClientId : Nat
  token : Nat
  nextToken : Nat
  port : Nat
  deriving DecidableEq

/-- `validate(presented)`: equality check against the current token. -/
def validateToken (srv : StudioServerState) (t : Option Nat) : Bool :=
  t = some srv.token

/-- `function isAllowedOrigin(_origin, _port) { return true; }` — origin-based
rejection is deliberately not performed. -/
def isAllowedOrigin (_origin : Option String) (_port : Nat) : Bool :=
  true

/-- Outcome of `handleHttpRequest` (the `503` branch corresponds to
`serverState === null` and is handled before this model applies). -/
inductive HttpOutcome
  | healthOk200
  | favicon204
  | notFound404
  | forbidden403
  | page200
  deriving DecidableEq

/-- ```
const handleHttpRequest = (req, res) => {
  if (pathname === "/health") respondText(200, "ok");
  else if (pathname === "/favicon.ico") 204;
  else if (pathname !== "/") respondText(404, "Not found");
  else if (token !== serverState.token) respondText(403, "Invalid or expired studio token. ...");
  else res.end(buildStudioHtml(...));
};
```
The handler mutates nothing; the embedding returns both states to make the
absence of side effects explicit. -/
def handleHttpRequest (srv : StudioServerState) (coord : CoordState)
    (pathname : String) (ptoken : Option Nat) :
    StudioServerState × CoordState × HttpOutcome :=
  if pathname = "/health" then (srv, coord, HttpOutcome.healthOk200)
  else if pathname = "/favicon.ico" then (srv, coord, HttpOutcome.favicon204)
  else if pathname ≠ "/" then (srv, coord, HttpOutcome.notFound404)
  else if ptoken ≠ some srv.token then (srv, coord, HttpOutcome.forbidden403)
  else (srv, coord, HttpOutcome.page200)

/-- Outcome of a WebSocket upgrade attempt. -/
inductive UpgradeOutcome
  | notFound404
  | unauthorized401
  | forbidden403
  | connected (client : Nat)
  deriving DecidableEq

/-- The `server.on("upgrade")` handler followed, on success, by the
`wsServer.on("connection")` handler (`clients.add(ws); broadcastState()`):
```
if (pathname !== "/ws") { socket.write("404"); socket.destroy(); return; }
if (token !== state.token) { socket.write("401"); socket.destroy(); return; }
if (!isAllowedOrigin(origin, port)) { socket.write("403"); socket.destroy(); return; }
wsServer.handleUpgrade(...);  // then clients.add(ws); broadcastState();
```
The coordinator state is read only for the `studio_state` broadcast and
never written. -/
def handleUpgrade (srv : StudioServerState) (coord : CoordState) (pathname : String)
    (ptoken : Option Nat) (origin : Option String) :
    StudioServerState × UpgradeOutcome × List StudioOutput :=
  if pathname ≠ "/ws" then (srv, UpgradeOutcome.notFound404, [])
  else if ptoken ≠ some srv.token then (srv, UpgradeOutcome.unauthorized401, [])
  else if isAllowedOrigin origin srv.port = false then
    (srv, UpgradeOutcome.forbidden403, [])
  else
    let c := srv.nextClientId
    ({ srv with clients := srv.clients ++ [c], nextClientId := c + 1 },
      UpgradeOutcome.connected c,
      [StudioOutput.toAll (stateMsg coord)])

/-- ```
const closeAllClients = (code = 4001, reason = "Session invalidated") => {
  for (const client of serverState.clients) client.close(code, reason);
  serverState.clients.clear();
};
```
Returns the `(client, code, reason)` close actions. -/
def closeAllClients (srv : StudioServerState) (code : Nat) (reason : String) :
    StudioServerState × List (Nat × Nat × String) :=
  ({ srv with clients := [] }, srv.clients.map (fun c => (c, code, reason)))

/-- ```
const rotateToken = () => {
  if (!serverState) return;
  serverState.token = createSessionToken();
  closeAllClients(4001, "Session invalidated");
  broadcastState();
};
```
The trailing `broadcastState()` iterates the just-cleared client set, so its
`studio_state` message is delivered to nobody; the delivered messages are the
close actions followed by that (empty) delivery. -/
def rotateToken (srv : StudioServerState) (coord : CoordState) :
    StudioServerState × List (Nat × Nat × String) × List (Nat × OutMsg) :=
  let srv1 : StudioServerState :=
    { srv with token := srv.nextToken, nextToken := srv.nextToken + 1 }
  let closed := closeAllClients srv1 4001 "Session invalidated"
  (closed.1, closed.2, deliverOutputs closed.1.clients [StudioOutput.toAll (stateMsg coord)])

/-- `n` successive `rotateToken()` calls, collecting every close action. -/
def rotateSeq (coord : CoordState) : Nat → StudioServerState →
    StudioServerState × List (Nat × Nat × String)
  | 0, srv => (srv, [])
  | n + 1, srv =>
    let step := rotateToken srv coord
    let rest := rotateSeq coord n step.1
    (rest.1, step.2.1 ++ rest.2)

/-- Broadcast `response` messages in an output list. -/
def countResponses (outs : List StudioOutput) : Nat :=
  outs.countP fun o =>
    match o with
    | StudioOutput.toAll (OutMsg.response _ _ _ _) => true
    | _ => false

/-- Broadcast `error` messages in an output list. -/
def countErrors (outs : List StudioOutput) : Nat :=
  outs.countP fun o =>
    match o with
    | StudioOutput.toAll (OutMsg.errorMsg _ _) => true
    | _ => false

/-- What "submission failure is atomic" means for a turn-starting message
`msg` with request id `rid` when `pi.sendUserMessage` throws synchronously
(`submitThrows = true`): the coordinator ends idle, the armed-timer set is
exactly what it was before the message (the freshly armed timeout has been
cancelled), an `error` naming `rid` is unicast to the requester, every
`error` unicast goes to the requester and none is broadcast. -/
def submitFailureAtomic (s : CoordState) (client : Nat) (msg : IncomingStudioMessage)
    (rid : String) (now : Nat) : Prop :=
  (handleStudioMessage s client msg now true).1.activeRequest = none ∧
  (handleStudioMessage s client msg now true).1.armedTimers = s.armedTimers ∧
  (∃ emsg, StudioOutput.toClient client (OutMsg.errorMsg (some rid) emsg) ∈
    (handleStudioMessage s client msg now true).2) ∧
  (∀ o ∈ (handleStudioMessage s client msg now true).2, ∀ c orid emsg,
    o = StudioOutput.toClient c (OutMsg.errorMsg orid emsg) → c = client) ∧
  (∀ o ∈ (handleStudioMessage s client msg now true).2, ∀ orid emsg,
    o ≠ StudioOutput.toAll (OutMsg.errorMsg orid emsg))

/-! ## Supporting lemmas -/

theorem listStartsWith_append (l t : List Char) : listStartsWith (l ++ t) l = true := by
  induction l with
  | nil => cases t <;> rfl
  | cons a as ih => simp [listStartsWith, ih]

theorem listHasSub_nil_needle (hay : List Char) : listHasSub hay [] = true := by
  cases hay <;> simp [listHasSub, listStartsWith, List.isEmpty]

theorem listHasSub_self_append (l t : List Char) : listHasSub (l ++ t) l = true := by
  cases l with
  | nil => exact listHasSub_nil_needle t
  | cons a as =>
    simp only [listHasSub, Bool.or_eq_true]
    exact Or.inl (listStartsWith_append (a :: as) t)

theorem listHasSub_append_left (s t n : List Char) (h : listHasSub t n = true) :
    listHasSub (s ++ t) n = true := by
  induction s with
  | nil => simpa using h
  | cons c s ih => simp [listHasSub, ih]

theorem splitLines_ne_nil (cs : List Char) : splitLines cs ≠ [] := by
  cases cs with
  | nil => simp [splitLines]
  | cons c rest =>
    simp only [splitLines]
    cases h : splitLines rest with
    | nil => simp
    | cons l ls => by_cases hc : c = '\n' <;> simp [hc]

theorem joinLines_splitLines (cs : List Char) : joinLines (splitLines cs) = cs := by
  induction cs with
  | nil => rfl
  | cons c rest ih =>
    simp only [splitLines]
    cases h : splitLines rest with
    | nil => exact absurd h (splitLines_ne_nil rest)
    | cons l ls =>
      rw [h] at ih
      by_cases hc : c = '\n'
      · subst hc
        simp only [if_pos rfl, joinLines]
        cases ls <;> simpa [joinLines] using ih
      · simp only [if_neg hc]
        cases ls with
        | nil => simpa [joinLines] using congrArg (c :: ·) ih
        | cons l2 ls2 =>
          simp only [joinLines] at ih ⊢
          rw [← ih]
          simp

theorem listHasSub_joinLines (l : List Char) (ls : List (List Char)) (h : l ∈ ls) :
    listHasSub (joinLines ls) l = true := by
  induction ls with
  | nil => cases h
  | cons hd tl ih =>
    rcases List.mem_cons.mp h with rfl | hmem
    · cases tl with
      | nil => simpa [joinLines] using listHasSub_self_append l []
      | cons t ts => exact listHasSub_self_append l ('\n' :: joinLines (t :: ts))
    · cases tl with
      | nil => cases hmem
      | cons t ts =>
        have hsub := ih hmem
        have h2 : listHasSub ('\n' :: joinLines (t :: ts)) l = true := by
          simp [listHasSub, hsub]
        have h3 := listHasSub_append_left hd ('\n' :: joinLines (t :: ts)) l h2
        simpa [joinLines] using h3

theorem dropWhile_replicate_a (n : Nat) :
    (List.replicate n 'a').dropWhile Char.isWhitespace = List.replicate n 'a' := by
  cases n with
  | zero => rfl
  | succ k =>
    rw [List.replicate_succ, List.dropWhile_cons]
    simp

theorem trimChars_replicate (n : Nat) :
    trimChars (List.replicate n 'a') = List.replicate n 'a' := by
  unfold trimChars
  rw [dropWhile_replicate_a, List.reverse_replicate, dropWhile_replicate_a,
    List.reverse_replicate]

theorem strIncludes_of_specHeading (md heading : String)
    (h : specHasHeadingLine md heading = true) :
    strIncludes (jsToLower md) heading = true := by
  have hmem : heading.data ∈ splitLines (jsToLower md).data := of_decide_eq_true h
  have hj := listHasSub_joinLines heading.data _ hmem
  rw [joinLines_splitLines] at hj
  exact hj

/-! ## Claim theorems -/

/-- C3 (counterexample): the claim predicts kind `annotation` for any
non-empty markdown that does not carry both section titles as exact heading
lines; but on this input — which merely mentions both titles mid-line —
`inferStudioResponseKind` returns `critique`, because the source tests
substring containment (`lower.includes(...)`), not heading-line match. -/
theorem inferKind_headingLine_counterexample :
    inferStudioResponseKind "intro ## critiques more ## document tail" =
      StudioRequestKind.critique ∧
    specInferKind "intro ## critiques more ## document tail" =
      StudioRequestKind.annot ∧
    "intro ## critiques more ## document tail" ≠ "" := by
  refine ⟨by decide, by decide, by decide⟩

/-- C3 (amended): markdown whose lowercased text contains both exact heading
lines `\"## critiques\"` and `\"## document\"` infers kind `critique` (the
claim's first half survives); and the inferred kind is `critique` exactly
when the lowercased text contains both titles as substrings (anywhere, not
necessarily as heading lines), all other markdown inferring `annotation`. -/
theorem inferStudioResponseKind_characterization (md : String) :
    (specHasHeadingLine md "## critiques" = true ∧
        specHasHeadingLine md "## document" = true →
      inferStudioResponseKind md = StudioRequestKind.critique) ∧
    (inferStudioResponseKind md = StudioRequestKind.critique ↔
      strIncludes (jsToLower md) "## critiques" = true ∧
        strIncludes (jsToLower md) "## document" = true) ∧
    (inferStudioResponseKind md ≠ StudioRequestKind.critique →
      inferStudioResponseKind md = StudioRequestKind.annot) := by
  refine ⟨?_, ?_, ?_⟩
  · rintro ⟨h1, h2⟩
    have i1 := strIncludes_of_specHeading md "## critiques" h1
    have i2 := strIncludes_of_specHeading md "## document" h2
    simp [inferStudioResponseKind, i1, i2]
  · constructor
    · intro h
      by_contra hc
      rw [Classical.not_and_iff_or_not_not] at hc
      rcases hc with hc | hc <;>
        simp [inferStudioResponseKind, Bool.eq_false_iff.mpr hc] at h
    · rintro ⟨i1, i2⟩
      simp [inferStudioResponseKind, i1, i2]
  · intro h
    by_cases hb :
        (strIncludes (jsToLower md) "## critiques" &&
          strIncludes (jsToLower md) "## document") = true
    · exact absurd (by simp [inferStudioResponseKind, hb]) h
    · simp [inferStudioResponseKind, Bool.eq_false_iff.mpr hb]

/-- C3 witness: a markdown with both exact heading lines is inferred as
`critique`. -/
theorem inferKind_witness :
    inferStudioResponseKind "## Critiques\nbody\n## Document\nrest" =
      StudioRequestKind.critique :=
  (inferStudioResponseKind_characterization "## Critiques\nbody\n## Document\nrest").1
    ⟨by decide, by decide⟩

/-- C1 (single-flight): from an idle, non-busy coordinator, `beginRequest r1`
succeeds and installs `r1` as the active request; a second `beginRequest r2`
issued while `r1` is still active returns `false`, emits only a `busy` reply
for `r2`, creates no new `ActiveRequest`, and leaves the state — in
particular the active request `r1` — unchanged. (The state carries at most
one live `ActiveRequest` by construction: the single `activeRequest` slot,
mirroring the source's one closure variable.) -/
theorem singleFlight (s : CoordState) (r1 r2 : String) (k1 k2 : StudioRequestKind)
    (now1 now2 : Nat) (hIdle : s.activeRequest = none) (hAgent : s.agentBusy = false) :
    (beginRequest s r1 k1 now1).2.2 = true ∧
    (beginRequest s r1 k1 now1).1.activeRequest = some ⟨r1, k1, s.nextTimerId, now1⟩ ∧
    beginRequest (beginRequest s r1 k1 now1).1 r2 k2 now2 =
      ((beginRequest s r1 k1 now1).1,
        [StudioOutput.toAll (OutMsg.busyMsg r2 "A studio request is already in progress.")],
        false) := by
  simp [beginRequest, hIdle, hAgent]

/-- C1 witness. -/
theorem singleFlight_witness :
    (beginRequest ⟨false, none, none, none, 0, []⟩ "r1" StudioRequestKind.critique 1).2.2 = true ∧
    (beginRequest ⟨false, none, none, none, 0, []⟩ "r1"
        StudioRequestKind.critique 1).1.activeRequest =
      some ⟨"r1", StudioRequestKind.critique, 0, 1⟩ ∧
    beginRequest
        (beginRequest ⟨false, none, none, none, 0, []⟩ "r1" StudioRequestKind.critique 1).1
        "r2" StudioRequestKind.annot 2 =
      ((beginRequest ⟨false, none, none, none, 0, []⟩ "r1" StudioRequestKind.critique 1).1,
        [StudioOutput.toAll (OutMsg.busyMsg "r2" "A studio request is already in progress.")],
        false) :=
  singleFlight ⟨false, none, none, none, 0, []⟩ "r1" "r2"
    StudioRequestKind.critique StudioRequestKind.annot 1 2 rfl rfl

/-- C2 (timeout/complete race): with a request active and an assistant
message carrying non-empty flattened text, running the `message_end` handler
and the timeout callback in either order within one tick broadcasts exactly
one message from `{response, error}` — never both — and ends with the
coordinator idle; and the delayed timeout callback is a no-op in any state
that has exited `Active`. -/
theorem timeoutCompleteRace (s : CoordState) (r : ActiveStudioRequest) (m : AgentMessage)
    (md : String) (now : Nat) (hact : s.activeRequest = some r)
    (hmd : extractAssistantText m = some md) :
    (countResponses ((handleMessageEnd s m now).2 ++
        (timeoutFire (handleMessageEnd s m now).1 r.id).2) = 1 ∧
      countErrors ((handleMessageEnd s m now).2 ++
        (timeoutFire (handleMessageEnd s m now).1 r.id).2) = 0 ∧
      (timeoutFire (handleMessageEnd s m now).1 r.id).1.activeRequest = none) ∧
    (countResponses ((timeoutFire s r.id).2 ++
        (handleMessageEnd (timeoutFire s r.id).1 m now).2) = 0 ∧
      countErrors ((timeoutFire s r.id).2 ++
        (handleMessageEnd (timeoutFire s r.id).1 m now).2) = 1 ∧
      (handleMessageEnd (timeoutFire s r.id).1 m now).1.activeRequest = none) ∧
    (∀ (s' : CoordState) (rid : String), s'.activeRequest = none →
      timeoutFire s' rid = (s', [])) := by
  refine ⟨?_, ?_, ?_⟩
  · simp [handleMessageEnd, timeoutFire, clearActiveRequest, hact, hmd,
      countResponses, countErrors, stateMsg]
  · simp [handleMessageEnd, timeoutFire, clearActiveRequest, hact, hmd,
      countResponses, countErrors, stateMsg, inferStudioResponseKind]
  · intro s' rid h
    simp [timeoutFire, h]

/-- C2 witness. -/
theorem timeoutCompleteRace_witness :
    ((⟨false, some ⟨"r1", StudioRequestKind.critique, 0, 0⟩, none, none, 1, [0]⟩ :
        CoordState).activeRequest = some ⟨"r1", StudioRequestKind.critique, 0, 0⟩) ∧
    extractAssistantText ⟨some "assistant", MsgContent.str "done"⟩ = some "done" ∧
    countResponses
      ((handleMessageEnd
          ⟨false, some ⟨"r1", StudioRequestKind.critique, 0, 0⟩, none, none, 1, [0]⟩
          ⟨some "assistant", MsgContent.str "done"⟩ 7).2 ++
        (timeoutFire
          (handleMessageEnd
            ⟨false, some ⟨"r1", StudioRequestKind.critique, 0, 0⟩, none, none, 1, [0]⟩
            ⟨some "assistant", MsgContent.str "done"⟩ 7).1 "r1").2) = 1 :=
  ⟨rfl, by decide,
    ((timeoutCompleteRace
      ⟨false, some ⟨"r1", StudioRequestKind.critique, 0, 0⟩, none, none, 1, [0]⟩
      ⟨"r1", StudioRequestKind.critique, 0, 0⟩
      ⟨some "assistant", MsgContent.str "done"⟩ "done" 7 rfl (by decide)).1).1⟩

/-- C4 (counterexample): the claim says a rejected turn-starting message
yields a `busy` reply to the requesting client only. Here client `0` sends a
`critique_request` while `r1` is active, and client `1` — a different
connected client — also receives the `busy` message: `beginRequest` emits it
with `broadcast(...)`, not `sendToClient(client, ...)`. -/
theorem busyReply_counterexample :
    (1, OutMsg.busyMsg "r2" "A studio request is already in progress.") ∈
      deliverOutputs [0, 1]
        (handleStudioMessage
          ⟨false, some ⟨"r1", StudioRequestKind.critique, 0, 0⟩, none, none, 1, [0]⟩
          0 (IncomingStudioMessage.critiqueRequest "r2" "doc" none) 5 false).2 := by
  decide

/-- C4 (amended): a turn-starting message rejected because a request is
already active or the agent is independently busy triggers a single `busy`
message that is broadcast to every connected client (the requester among
them), and the coordinator state is unchanged. -/
theorem busyReplyBroadcast (s : CoordState) (rid : String) (k : StudioRequestKind)
    (now : Nat) (clients : List Nat)
    (h : s.activeRequest.isSome = true ∨ s.agentBusy = true) :
    (beginRequest s rid k now).2.2 = false ∧
    (beginRequest s rid k now).1 = s ∧
    ∃ msg, (beginRequest s rid k now).2.1 =
        [StudioOutput.toAll (OutMsg.busyMsg rid msg)] ∧
      ∀ c ∈ clients,
        (c, OutMsg.busyMsg rid msg) ∈
          deliverOutputs clients (beginRequest s rid k now).2.1 := by
  match hact : s.activeRequest with
  | some r =>
    refine ⟨by simp [beginRequest, hact], by simp [beginRequest, hact],
      "A studio request is already in progress.", by simp [beginRequest, hact], ?_⟩
    intro c hc
    simpa [beginRequest, hact, deliverOutputs, deliverOutput] using hc
  | none =>
    have hbusy : s.agentBusy = true := by
      rcases h with h | h
      · rw [hact] at h; cases h
      · exact h
    refine ⟨by simp [beginRequest, hact, hbusy], by simp [beginRequest, hact, hbusy],
      "pi is currently busy. Wait for the current turn to finish.",
      by simp [beginRequest, hact, hbusy], ?_⟩
    intro c hc
    simpa [beginRequest, hact, hbusy, deliverOutputs, deliverOutput] using hc

/-- C4 witness. -/
theorem busyReplyBroadcast_witness :
    ((⟨false, some ⟨"r1", StudioRequestKind.critique, 0, 0⟩, none, none, 1, [0]⟩ :
        CoordState).activeRequest.isSome = true ∨
      (⟨false, some ⟨"r1", StudioRequestKind.critique, 0, 0⟩, none, none, 1, [0]⟩ :
        CoordState).agentBusy = true) ∧
    (beginRequest
      ⟨false, some ⟨"r1", StudioRequestKind.critique, 0, 0⟩, none, none, 1, [0]⟩
      "r2" StudioRequestKind.annot 5).2.2 = false :=
  ⟨Or.inl rfl,
    (busyReplyBroadcast
      ⟨false, some ⟨"r1", StudioRequestKind.critique, 0, 0⟩, none, none, 1, [0]⟩
      "r2" StudioRequestKind.annot 5 [0, 1] (Or.inl rfl)).1⟩

/-- C5 (token gate): an HTTP `GET /` presenting a token different from the
current one is answered `403` with both the server state (client set and
token) and the coordinator state (active request, LastResponse) unchanged;
a WebSocket upgrade presenting such a token — at any path — never reaches
`connected`, emits nothing, and leaves the server state unchanged (the
upgrade handler never touches the coordinator state at all). -/
theorem tokenGate (srv : StudioServerState) (coord : CoordState) (ptoken : Option Nat)
    (origin : Option String) (pathname : String) (h : ptoken ≠ some srv.token) :
    handleHttpRequest srv coord "/" ptoken = (srv, coord, HttpOutcome.forbidden403) ∧
    (handleUpgrade srv coord pathname ptoken origin).1 = srv ∧
    (handleUpgrade srv coord pathname ptoken origin).2.2 = [] ∧
    ∀ c, (handleUpgrade srv coord pathname ptoken origin).2.1 ≠
      UpgradeOutcome.connected c := by
  refine ⟨by simp [handleHttpRequest, h], ?_⟩
  by_cases hp : pathname = "/ws" <;> simp [handleUpgrade, hp, h]

/-- C5 witness. -/
theorem tokenGate_witness :
    (some 99 : Option Nat) ≠
      some (⟨[0, 1], 2, 7, 8, 3000⟩ : StudioServerState).token ∧
    handleHttpRequest ⟨[0, 1], 2, 7, 8, 3000⟩ ⟨false, none, none, none, 0, []⟩
        "/" (some 99) =
      (⟨[0, 1], 2, 7, 8, 3000⟩, ⟨false, none, none, none, 0, []⟩,
        HttpOutcome.forbidden403) :=
  ⟨by decide,
    (tokenGate ⟨[0, 1], 2, 7, 8, 3000⟩ ⟨false, none, none, none, 0, []⟩
      (some 99) none "/ws" (by decide)).1⟩

/-- C6 (submission-failure atomicity): for each of the three turn-starting
message types, if the message passes validation, the coordinator is idle and
the agent free (so the request actually begins), and handing the prompt to
the agent throws synchronously, then the coordinator unwinds immediately to
idle, the freshly armed timeout is cancelled (the armed-timer set is exactly
its pre-request value), an error naming the request is unicast to the
requesting client, and no error goes to anyone else (none is broadcast). -/
theorem submissionFailureUnwinds (s : CoordState) (client : Nat) (now : Nat)
    (hIdle : s.activeRequest = none) (hAgent : s.agentBusy = false)
    (hWF : ∀ t ∈ s.armedTimers, t < s.nextTimerId) :
    (∀ rid doc lens, isValidRequestId rid = true → jsTrim doc ≠ "" →
      (jsTrim doc).length ≤ 200000 →
      submitFailureAtomic s client
        (IncomingStudioMessage.critiqueRequest rid doc lens) rid now) ∧
    (∀ rid txt, isValidRequestId rid = true → jsTrim txt ≠ "" →
      submitFailureAtomic s client
        (IncomingStudioMessage.annotRequest rid txt) rid now) ∧
    (∀ rid txt, isValidRequestId rid = true → jsTrim txt ≠ "" →
      submitFailureAtomic s client
        (IncomingStudioMessage.sendRunRequest rid txt) rid now) := by
  have hne' : ∀ a ∈ s.armedTimers, ¬ a = s.nextTimerId :=
    fun a ha => Nat.ne_of_lt (hWF a ha)
  refine ⟨?_, ?_, ?_⟩
  · intro rid doc lens hvalid hne hlen
    refine ⟨?_, ?_, ?_, ?_, ?_⟩ <;>
      simp [handleStudioMessage, hvalid, hne, Nat.not_lt.mpr hlen,
        beginRequest, hIdle, hAgent, clearActiveRequest, stateMsg] <;>
      try exact hne'
  · intro rid txt hvalid hne
    refine ⟨?_, ?_, ?_, ?_, ?_⟩ <;>
      simp [handleStudioMessage, hvalid, hne,
        beginRequest, hIdle, hAgent, clearActiveRequest, stateMsg] <;>
      try exact hne'
  · intro rid txt hvalid hne
    refine ⟨?_, ?_, ?_, ?_, ?_⟩ <;>
      simp [handleStudioMessage, hvalid, hne,
        beginRequest, hIdle, hAgent, clearActiveRequest, stateMsg] <;>
      try exact hne'

/-- C6 witness. -/
theorem submissionFailureUnwinds_witness :
    ((⟨false, none, none, none, 0, []⟩ : CoordState).activeRequest = none) ∧
    isValidRequestId "r1" = true ∧ jsTrim "hello" ≠ "" ∧
    submitFailureAtomic ⟨false, none, none, none, 0, []⟩ 0
      (IncomingStudioMessage.annotRequest "r1" "hello") "r1" 3 :=
  ⟨rfl, by decide, by decide,
    (submissionFailureUnwinds ⟨false, none, none, none, 0, []⟩ 0 3 rfl rfl
      (by intro t ht; cases ht)).2.1 "r1" "hello" (by decide) (by decide)⟩

/-- Shape of `n + 1` successive rotations: the final token is the last one
minted, the client set is empty, and the close actions are exactly one
`4001`-close per originally connected client (later rotations close nobody,
the set already being empty). -/
theorem rotateSeq_succ_spec (coord : CoordState) (n : Nat) (srv : StudioServerState) :
    (rotateSeq coord (n + 1) srv).1.token = srv.nextToken + n ∧
    (rotateSeq coord (n + 1) srv).1.nextToken = srv.nextToken + n + 1 ∧
    (rotateSeq coord (n + 1) srv).1.clients = [] ∧
    (rotateSeq coord (n + 1) srv).2 =
      srv.clients.map (fun c => (c, 4001, "Session invalidated")) := by
  induction n generalizing srv with
  | zero =>
    simp [rotateSeq, rotateToken, closeAllClients, deliverOutputs, deliverOutput]
  | succ n ih =>
    obtain ⟨h1, h2, h3, h4⟩ :=
      ih ⟨[], srv.nextClientId, srv.nextToken, srv.nextToken + 1, srv.port⟩
    refine ⟨?_, ?_, ?_, ?_⟩
    · show (rotateSeq coord (n + 1)
          ⟨[], srv.nextClientId, srv.nextToken, srv.nextToken + 1, srv.port⟩).1.token =
        srv.nextToken + (n + 1)
      have h1' : (rotateSeq coord (n + 1)
          ⟨[], srv.nextClientId, srv.nextToken, srv.nextToken + 1, srv.port⟩).1.token =
          srv.nextToken + 1 + n := h1
      rw [h1']; omega
    · show (rotateSeq coord (n + 1)
          ⟨[], srv.nextClientId, srv.nextToken, srv.nextToken + 1, srv.port⟩).1.nextToken =
        srv.nextToken + (n + 1) + 1
      have h2' : (rotateSeq coord (n + 1)
          ⟨[], srv.nextClientId, srv.nextToken, srv.nextToken + 1, srv.port⟩).1.nextToken =
          srv.nextToken + 1 + n + 1 := h2
      rw [h2']; omega
    · exact h3
    · show srv.clients.map (fun c => (c, 4001, "Session invalidated")) ++
        (rotateSeq coord (n + 1)
          ⟨[], srv.nextClientId, srv.nextToken, srv.nextToken + 1, srv.port⟩).2 =
        srv.clients.map (fun c => (c, 4001, "Session invalidated"))
      have h4' : (rotateSeq coord (n + 1)
          ⟨[], srv.nextClientId, srv.nextToken, srv.nextToken + 1, srv.port⟩).2 = [] := by
        rw [h4]; rfl
      rw [h4']; simp

/-- C7 (idempotent rotation): after `n + 1` calls to `rotateToken()` on a
running server, the client set is empty (no connection carries pre-rotation
state), the current token is the last minted one, exactly that token
validates (the pre-rotation token in particular no longer does), and every
client connected before the sequence received the `4001` invalidation
close. The freshness hypothesis `srv.token < srv.nextToken` says the
current token was itself minted from the counter. -/
theorem idempotentRotation (coord : CoordState) (srv : StudioServerState) (n : Nat)
    (hwf : srv.token < srv.nextToken) :
    (rotateSeq coord (n + 1) srv).1.clients = [] ∧
    (rotateSeq coord (n + 1) srv).1.token = srv.nextToken + n ∧
    validateToken (rotateSeq coord (n + 1) srv).1 (some (srv.nextToken + n)) = true ∧
    (∀ t, validateToken (rotateSeq coord (n + 1) srv).1 (some t) = true →
      t = srv.nextToken + n) ∧
    validateToken (rotateSeq coord (n + 1) srv).1 (some srv.token) = false ∧
    (∀ c ∈ srv.clients,
      (c, 4001, "Session invalidated") ∈ (rotateSeq coord (n + 1) srv).2) := by
  obtain ⟨h1, h2, h3, h4⟩ := rotateSeq_succ_spec coord n srv
  refine ⟨h3, h1, ?_, ?_, ?_, ?_⟩
  · simp [validateToken, h1]
  · intro t ht
    simpa [validateToken, h1] using ht
  · simp only [validateToken, h1, Option.some.injEq]
    simpa using Nat.ne_of_lt (Nat.lt_of_lt_of_le hwf (Nat.le_add_right _ n))
  · intro c hc
    rw [h4]
    exact List.mem_map_of_mem (fun c => (c, 4001, "Session invalidated")) hc

/-- C7 witness: two rotations on a server with two clients and token `0`. -/
theorem idempotentRotation_witness :
    (⟨[5, 6], 7, 0, 1, 3000⟩ : StudioServerState).token <
      (⟨[5, 6], 7, 0, 1, 3000⟩ : StudioServerState).nextToken ∧
    (rotateSeq ⟨false, none, none, none, 0, []⟩ (1 + 1)
      ⟨[5, 6], 7, 0, 1, 3000⟩).1.clients = [] :=
  ⟨by decide,
    (idempotentRotation ⟨false, none, none, none, 0, []⟩
      ⟨[5, 6], 7, 0, 1, 3000⟩ 1 (by decide)).1⟩

/-- C8 (incomplete turn): if the agent's turn ends while a request is still
active (no assistant text arrived, else `message_end` would already have
cleared it), the `agent_end` handler broadcasts an `error` naming that
request's id to every connected client, clears the active request, cancels
its timer, and leaves the coordinator idle and not busy. -/
theorem incompleteTurn (s : CoordState) (r : ActiveStudioRequest) (clients : List Nat)
    (hact : s.activeRequest = some r) :
    (handleAgentEnd s).1.activeRequest = none ∧
    (handleAgentEnd s).1.agentBusy = false ∧
    StudioOutput.toAll (OutMsg.errorMsg (some r.id)
      "Request ended without a complete assistant response.") ∈ (handleAgentEnd s).2 ∧
    r.timer ∉ (handleAgentEnd s).1.armedTimers ∧
    ∀ c ∈ clients,
      (c, OutMsg.errorMsg (some r.id)
        "Request ended without a complete assistant response.") ∈
        deliverOutputs clients (handleAgentEnd s).2 := by
  refine ⟨?_, ?_, ?_, ?_, ?_⟩
  · simp [handleAgentEnd, clearActiveRequest, hact]
  · simp [handleAgentEnd, clearActiveRequest, hact]
  · simp [handleAgentEnd, clearActiveRequest, hact]
  · simp [handleAgentEnd, clearActiveRequest, hact, List.mem_filter]
  · intro c hc
    simp [handleAgentEnd, clearActiveRequest, hact, deliverOutputs, deliverOutput]
    exact Or.inr (Or.inl hc)

/-- C8 witness. -/
theorem incompleteTurn_witness :
    ((⟨true, some ⟨"r9", StudioRequestKind.direct, 4, 2⟩, none, none, 5, [4]⟩ :
        CoordState).activeRequest = some ⟨"r9", StudioRequestKind.direct, 4, 2⟩) ∧
    (handleAgentEnd
      ⟨true, some ⟨"r9", StudioRequestKind.direct, 4, 2⟩, none, none, 5, [4]⟩).1.activeRequest =
      none :=
  ⟨rfl,
    (incompleteTurn
      ⟨true, some ⟨"r9", StudioRequestKind.direct, 4, 2⟩, none, none, 5, [4]⟩
      ⟨"r9", StudioRequestKind.direct, 4, 2⟩ [0] rfl).1⟩

/-- C9 (LastResponse overwrite): every assistant message whose flattened
text is non-empty overwrites `lastStudioResponse` with that text and the
current timestamp, whether or not a request is active; with a request
active the stored kind is the request's recorded kind; with no request
active the kind is inferred from the content shape and a single
`latest_response{kind, markdown, timestamp}` message is broadcast. -/
theorem lastResponseOverwrite (s : CoordState) (m : AgentMessage) (md : String)
    (now : Nat) (hmd : extractAssistantText m = some md) :
    (∃ k, (handleMessageEnd s m now).1.lastStudioResponse = some ⟨md, now, k⟩) ∧
    (s.activeRequest = none →
      (handleMessageEnd s m now).1.lastStudioResponse =
        some ⟨md, now, inferStudioResponseKind md⟩ ∧
      (handleMessageEnd s m now).2 =
        [StudioOutput.toAll
          (OutMsg.latestResponse (inferStudioResponseKind md) md now)]) ∧
    (∀ r, s.activeRequest = some r →
      (handleMessageEnd s m now).1.lastStudioResponse = some ⟨md, now, r.kind⟩) := by
  refine ⟨?_, ?_, ?_⟩
  · match hact : s.activeRequest with
    | some r =>
      exact ⟨r.kind, by simp [handleMessageEnd, clearActiveRequest, hmd, hact]⟩
    | none =>
      exact ⟨inferStudioResponseKind md, by simp [handleMessageEnd, hmd, hact]⟩
  · intro hact
    constructor <;> simp [handleMessageEnd, hmd, hact]
  · intro r hact
    simp [handleMessageEnd, clearActiveRequest, hmd, hact]

/-- C9 witness. -/
theorem lastResponseOverwrite_witness :
    extractAssistantText ⟨some "assistant", MsgContent.str "out of band"⟩ =
      some "out of band" ∧
    (handleMessageEnd ⟨false, none, none, none, 0, []⟩
        ⟨some "assistant", MsgContent.str "out of band"⟩ 11).1.lastStudioResponse =
      some ⟨"out of band", 11, inferStudioResponseKind "out of band"⟩ :=
  ⟨by decide,
    ((lastResponseOverwrite ⟨false, none, none, none, 0, []⟩
      ⟨some "assistant", MsgContent.str "out of band"⟩ "out of band" 11
      (by decide)).2.1 rfl).1⟩

/-- C10 (implicit document size cap): any `critique_request` whose trimmed
document exceeds 200000 characters is answered with a single `error` unicast
to the requesting client; the coordinator state is unchanged (no request
begins, no timer is armed) and nothing is handed to the agent. The spec does
not mention this limit. -/
theorem documentSizeCap (s : CoordState) (client : Nat) (rid doc : String)
    (lens : Option RequestedLens) (now : Nat) (th : Bool)
    (hbig : 200000 < (jsTrim doc).length) :
    ∃ emsg,
      handleStudioMessage s client
          (IncomingStudioMessage.critiqueRequest rid doc lens) now th =
        (s, [StudioOutput.toClient client (OutMsg.errorMsg (some rid) emsg)]) := by
  by_cases hv : isValidRequestId rid = true
  · have hne : jsTrim doc ≠ "" := by
      intro h
      rw [h] at hbig
      simp [String.length] at hbig
    exact ⟨"Document is too large for v0.1 studio workflow.",
      by simp [handleStudioMessage, hv, hne, hbig]⟩
  · exact ⟨"Invalid request ID.",
      by simp [handleStudioMessage, Bool.eq_false_iff.mpr hv]⟩

/-- C10 witness: a 200001-character document. -/
theorem documentSizeCap_witness :
    200000 < (jsTrim (String.mk (List.replicate (200000 + 1) 'a'))).length ∧
    ∃ emsg,
      handleStudioMessage ⟨false, none, none, none, 0, []⟩ 0
          (IncomingStudioMessage.critiqueRequest "r1"
            (String.mk (List.replicate (200000 + 1) 'a')) none) 9 false =
        (⟨false, none, none, none, 0, []⟩,
          [StudioOutput.toClient 0 (OutMsg.errorMsg (some "r1") emsg)]) := by
  have hlen : 200000 < (jsTrim (String.mk (List.replicate (200000 + 1) 'a'))).length := by
    show 200000 <
      (String.mk (trimChars (List.replicate (200000 + 1) 'a'))).length
    rw [trimChars_replicate]
    show 200000 < (List.replicate (200000 + 1) 'a').length
    rw [List.length_replicate]
    omega
  exact ⟨hlen,
    documentSizeCap ⟨false, none, none, none, 0, []⟩ 0 "r1"
      (String.mk (List.replicate (200000 + 1) 'a')) none 9 false hlen⟩

end PiStudio
